import Mathlib

/-!
Verification development for `dtsu666_fullFeature.py`, a Modbus-to-MQTT
publisher for the Chint DTSU666 power meter.

The script is shallowly embedded: register values are modelled as exact
rationals extended with a NaN point (IEEE comparisons with NaN are false,
arithmetic on NaN yields NaN), transport reads are `Option`-valued
functions (the script's `read_register_value` catches every exception and
returns `None`), and the MQTT side is modelled as an event trace.
-/

namespace Dtsu666

/-- A register descriptor, one entry of the script's `REGISTERS` table:
name, Modbus address, unit string and multiplicative scale. -/
structure Reg where
  name : String
  addr : Nat
  unit : String
  scale : ℚ
deriving DecidableEq, Repr

/-- The `REGISTERS` list of the script (lines 47-66), transcribed verbatim. -/
def REGISTERS : List Reg := [
  ⟨"Voltage_A", 0x2006, "V", 1/10⟩,
  ⟨"Voltage_B", 0x2008, "V", 1/10⟩,
  ⟨"Voltage_C", 0x200A, "V", 1/10⟩,
  ⟨"Current_A", 0x200C, "A", 1/1000⟩,
  ⟨"Current_B", 0x200E, "A", 1/1000⟩,
  ⟨"Current_C", 0x2010, "A", 1/1000⟩,
  ⟨"Power_A", 0x2014, "W", 1/10⟩,
  ⟨"Power_B", 0x2016, "W", 1/10⟩,
  ⟨"Power_C", 0x2018, "W", 1/10⟩,
  ⟨"Power_Total", 0x2012, "W", 1/10⟩,
  ⟨"Frequency", 0x2044, "Hz", 1/100⟩,
  ⟨"Energy_Import", 0x401E, "kWh", 1⟩,
  ⟨"Energy_Export", 0x4028, "kWh", 1⟩]

/-- A float value as it flows through the script: either an (idealised,
exact) numeric value or NaN.  NaN propagates through arithmetic and makes
every ordered comparison false, as in IEEE-754. -/
inductive Val where
  | num (q : ℚ)
  | nan
deriving DecidableEq, Repr

/-- Multiplication by the scale factor (`float_value * reg["scale"]`,
line 163); NaN absorbs. -/
def Val.mul : Val → ℚ → Val
  | .num q, s => .num (q * s)
  | .nan, _ => .nan

/-- `<` against a numeric bound: false on NaN, exact otherwise. -/
def Val.lt : Val → ℚ → Bool
  | .num q, c => decide (q < c)
  | .nan, _ => false

/-- `>` against a numeric bound: false on NaN, exact otherwise. -/
def Val.gt : Val → ℚ → Bool
  | .num q, c => decide (c < q)
  | .nan, _ => false

/-- Python `abs`: absolute value, `abs(nan) = nan`. -/
def Val.abs : Val → Val
  | .num q => .num |q|
  | .nan => .nan

/-- Round a rational to the nearest integer, ties to the even integer:
the tie-breaking rule of Python 3's built-in `round`. -/
def roundHalfEven (x : ℚ) : ℤ :=
  let n := ⌊x⌋
  let frac := x - (n : ℚ)
  if frac < 1/2 then n
  else if 1/2 < frac then n + 1
  else if n % 2 = 0 then n else n + 1

/-- Python's `round(x, d)`: round to `d` decimal places, ties to even. -/
def roundDec (x : ℚ) (d : ℕ) : ℚ :=
  (roundHalfEven (x * 10 ^ d) : ℚ) / 10 ^ d

/-- `round(v, d)` lifted to values; `round(nan, d)` is NaN in Python. -/
def Val.roundTo : Val → ℕ → Val
  | .num q, d => .num (roundDec q d)
  | .nan, _ => .nan

/-- The unit-directed rounding of `main` (lines 166-175): V to 1 place,
A to 3, W to 1, Hz to 2, kWh to 3; any other unit is left unrounded. -/
def applyRounding (u : String) (v : Val) : Val :=
  if u = "V" then v.roundTo 1
  else if u = "A" then v.roundTo 3
  else if u = "W" then v.roundTo 1
  else if u = "Hz" then v.roundTo 2
  else if u = "kWh" then v.roundTo 3
  else v

/-- The "extended plausibility check" of `main` (lines 178-189): `true`
means the value is rejected (the loop `continue`s without publishing). -/
def rejectCheck (u : String) (v : Val) : Bool :=
  if u = "V" then v.lt 0 || v.gt 1000
  else if u = "A" then v.lt 0 || v.gt 1000
  else if u = "Hz" then v.lt 40 || v.gt 70
  else if u = "W" then v.abs.gt 50000
  else false

/-- The value the script both bound-checks and publishes: the raw float
scaled by `reg.scale` (line 163) and then rounded per unit (lines 166-175). -/
def finalValue (reg : Reg) (raw : Val) : Val :=
  applyRounding reg.unit (raw.mul reg.scale)

/-- Observable events of one program run.  `readStart`/`readEnd` bracket
the single Modbus exchange of `read_register_value`; `readErr` is the
`None` return after a caught transport exception; `implaus` is the logged
rejection; `published`/`pubFail` is the single `mqtt_client.publish` call
for the value (succeeding or raising); `announced` is one retained
discovery publish; `summary` is the end-of-cycle
`Successfully read: n/total` report. -/
inductive Event where
  | readStart (addr : Nat)
  | readEnd (addr : Nat)
  | readErr (name : String)
  | implaus (name : String) (v : Val)
  | published (name : String) (v : Val)
  | pubFail (name : String)
  | announced (topic : String) (payload : String) (retain : Bool)
  | summary (succ : Nat) (total : Nat)
deriving DecidableEq, Repr

/-- The body of the per-register loop of `main` (lines 154-199) for one
descriptor.  `r reg` is the outcome of `read_register_value` (`none` after
a caught transport fault); `p reg` tells whether the MQTT publish call for
this descriptor succeeds (`false` meaning it raises, caught by the
per-descriptor `except`).  Returns the emitted events and the increment to
`successful_reads`. -/
def processReg (r : Reg → Option Val) (p : Reg → Bool) (reg : Reg) :
    List Event × Nat :=
  match r reg with
  | none => ([.readStart reg.addr, .readEnd reg.addr, .readErr reg.name], 0)
  | some raw =>
    let final := finalValue reg raw
    if rejectCheck reg.unit final then
      ([.readStart reg.addr, .readEnd reg.addr, .implaus reg.name final], 0)
    else if p reg then
      ([.readStart reg.addr, .readEnd reg.addr, .published reg.name final], 1)
    else
      ([.readStart reg.addr, .readEnd reg.addr, .pubFail reg.name], 0)

/-- The `for reg in REGISTERS` loop of one poll cycle: events in order and
the final `successful_reads` counter. -/
def runCycle (r : Reg → Option Val) (p : Reg → Bool) : List Reg → List Event × Nat
  | [] => ([], 0)
  | reg :: rest =>
    let step := processReg r p reg
    let tail := runCycle r p rest
    (step.1 ++ tail.1, step.2 + tail.2)

/-- One full poll cycle over a catalog: the loop's events followed by the
unconditional summary print (line 201), which reports `successful_reads`
out of `len(REGISTERS)`. -/
def cycleTrace (r : Reg → Option Val) (p : Reg → Bool) (catalog : List Reg) :
    List Event :=
  (runCycle r p catalog).1 ++ [.summary (runCycle r p catalog).2 catalog.length]

/-- The configuration surface relevant to topic/payload construction:
`DEVICE_ID`, `DEVICE_NAME` and `MQTT_PREFIX` (env-supplied, lines 30-33). -/
structure Config where
  deviceId : String
  deviceName : String
  mqttBase : String
deriving DecidableEq, Repr

/-- The default configuration values of the script. -/
def defaultConfig : Config :=
  ⟨"dtsu666_meter", "Chint DTSU666", "chint/dtsu666"⟩

/-- The telemetry topic used by `main` when publishing a value
(line 192): `f"{MQTT_PREFIX}/{reg['name']}"`. -/
def telemetryTopic (cfg : Config) (reg : Reg) : String :=
  cfg.mqttBase ++ "/" ++ reg.name

/-- Python `str.lower()` (character-wise; every catalog name is ASCII). -/
def pyLower (s : String) : String :=
  ⟨s.data.map Char.toLower⟩

/-- Python `str.replace("_", " ")` (the pattern is a single character). -/
def pyUnderscoreToSpace (s : String) : String :=
  ⟨s.data.map (fun c => if c = '_' then ' ' else c)⟩

/-- The discovery config topic of `publish_discovery` (line 126):
`f"homeassistant/sensor/{DEVICE_ID}/{sensor_id}/config"` with
`sensor_id = reg["name"].lower()`. -/
def discoveryTopic (cfg : Config) (reg : Reg) : String :=
  "homeassistant/sensor/" ++ cfg.deviceId ++ "/" ++ pyLower reg.name ++ "/config"

/-- The `device` sub-object of the discovery payload (lines 133-138). -/
structure DeviceBlock where
  identifiers : List String
  name : String
  model : String
  manufacturer : String
deriving DecidableEq, Repr

/-- The discovery payload dict of `publish_discovery` (lines 128-139),
field for field in insertion order. -/
structure DiscoveryDoc where
  name : String
  state_topic : String
  unit_of_measurement : String
  unique_id : String
  device : DeviceBlock
deriving DecidableEq, Repr

/-- The discovery payload built for one descriptor (lines 125-139). -/
def discoveryDoc (cfg : Config) (reg : Reg) : DiscoveryDoc where
  name := pyUnderscoreToSpace reg.name
  state_topic := cfg.mqttBase ++ "/" ++ reg.name
  unit_of_measurement := reg.unit
  unique_id := cfg.deviceId ++ "_" ++ pyLower reg.name
  device :=
    { identifiers := [cfg.deviceId]
      name := cfg.deviceName
      model := "DTSU666"
      manufacturer := "Chint" }

/-- A JSON string literal as `json.dumps` renders it (no character in any
payload string needs escaping). -/
def jstr (s : String) : String := "\"" ++ s ++ "\""

/-- `json.dumps` of the `device` sub-object: keys in dict insertion
order, default separators. -/
def DeviceBlock.dumps (d : DeviceBlock) : String :=
  "\x7b\"identifiers\": [" ++ String.intercalate ", " (d.identifiers.map jstr) ++
  "], \"name\": \"" ++ d.name ++
  "\", \"model\": \"" ++ d.model ++
  "\", \"manufacturer\": \"" ++ d.manufacturer ++ "\"\x7d"

/-- `json.dumps(payload)` at line 140: keys in dict insertion order,
default separators. -/
def DiscoveryDoc.dumps (doc : DiscoveryDoc) : String :=
  "\x7b\"name\": \"" ++ doc.name ++
  "\", \"state_topic\": \"" ++ doc.state_topic ++
  "\", \"unit_of_measurement\": \"" ++ doc.unit_of_measurement ++
  "\", \"unique_id\": \"" ++ doc.unique_id ++
  "\", \"device\": " ++ doc.device.dumps ++ "\x7d"

/-- The one retained discovery publish for a descriptor (line 140):
topic, serialised payload, `retain=True`. -/
def announceMessage (cfg : Config) (reg : Reg) : String × String × Bool :=
  (discoveryTopic cfg reg, (discoveryDoc cfg reg).dumps, true)

/-- `publish_discovery()`: one retained message per catalog entry, in
catalog order. -/
def announceMessages (cfg : Config) (catalog : List Reg) :
    List (String × String × Bool) :=
  catalog.map (announceMessage cfg)

/-- Two back-to-back invocations of `publish_discovery()` over the same
catalog and configuration: the concatenated message streams. -/
def announceTwice (cfg : Config) (catalog : List Reg) :
    List (String × String × Bool) :=
  announceMessages cfg catalog ++ announceMessages cfg catalog

/-- The trace events of `publish_discovery()`. -/
def announceEvents (cfg : Config) (catalog : List Reg) : List Event :=
  catalog.map (fun reg =>
    .announced (discoveryTopic cfg reg) ((discoveryDoc cfg reg).dumps) true)

/-- The trace of `main` run for `n` poll cycles: `publish_discovery()`
once, then the cycles in order (line 146 and the `while True` loop).
`r k`/`p k` give cycle `k`'s read outcomes and publish outcomes. -/
def programTrace (cfg : Config) (r : ℕ → Reg → Option Val)
    (p : ℕ → Reg → Bool) (catalog : List Reg) (n : ℕ) : List Event :=
  announceEvents cfg catalog ++
    ((List.range n).map (fun k => cycleTrace (r k) (p k) catalog)).flatten

/-- Is this event a successful telemetry publish? -/
def isPublished : Event → Bool
  | .published _ _ => true
  | _ => false

/-- Is this event an attempt to publish telemetry (successful or not)? -/
def isPubAttempt : Event → Bool
  | .published _ _ => true
  | .pubFail _ => true
  | _ => false

/-- Is this event part of a transport read exchange? -/
def isReadEv : Event → Bool
  | .readStart _ => true
  | .readEnd _ => true
  | _ => false

/-- Is this event a discovery announcement? -/
def isAnnounce : Event → Bool
  | .announced _ _ _ => true
  | _ => false

/-- Names of successfully published descriptors, in publish order. -/
def publishedNames (evs : List Event) : List String :=
  evs.filterMap (fun e => match e with
    | .published nm _ => some nm
    | _ => none)

/-- Whether a descriptor's value is accepted and its publish succeeds in
the cycle described by `r` and `p`. -/
def acceptedB (r : Reg → Option Val) (p : Reg → Bool) (reg : Reg) : Bool :=
  match r reg with
  | none => false
  | some raw => !rejectCheck reg.unit (finalValue reg raw) && p reg

theorem runCycle_append (r : Reg → Option Val) (p : Reg → Bool)
    (xs ys : List Reg) :
    runCycle r p (xs ++ ys) =
      ((runCycle r p xs).1 ++ (runCycle r p ys).1,
       (runCycle r p xs).2 + (runCycle r p ys).2) := by
  induction xs with
  | nil => simp [runCycle]
  | cons reg rest ih => simp [runCycle, ih, Nat.add_assoc]

theorem runCycle_events_flatten (r : Reg → Option Val) (p : Reg → Bool)
    (catalog : List Reg) :
    (runCycle r p catalog).1 =
      (catalog.map (fun reg => (processReg r p reg).1)).flatten := by
  induction catalog with
  | nil => simp [runCycle]
  | cons reg rest ih => simp [runCycle, ih]

theorem processReg_filter_read (r : Reg → Option Val) (p : Reg → Bool)
    (reg : Reg) :
    (processReg r p reg).1.filter isReadEv =
      [.readStart reg.addr, .readEnd reg.addr] := by
  unfold processReg
  cases r reg with
  | none => simp [isReadEv]
  | some raw =>
    by_cases h1 : rejectCheck reg.unit (finalValue reg raw) <;>
      by_cases h2 : p reg <;> simp [h1, h2, isReadEv]

theorem processReg_published_count (r : Reg → Option Val) (p : Reg → Bool)
    (reg : Reg) :
    ((processReg r p reg).1.filter isPublished).length =
      (processReg r p reg).2 := by
  unfold processReg
  cases r reg with
  | none => simp [isPublished]
  | some raw =>
    by_cases h1 : rejectCheck reg.unit (finalValue reg raw) <;>
      by_cases h2 : p reg <;> simp [h1, h2, isPublished]

theorem processReg_pub_attempts (r : Reg → Option Val) (p : Reg → Bool)
    (reg : Reg) :
    ((processReg r p reg).1.filter isPubAttempt).length ≤ 1 := by
  unfold processReg
  cases r reg with
  | none => simp [isPubAttempt]
  | some raw =>
    by_cases h1 : rejectCheck reg.unit (finalValue reg raw) <;>
      by_cases h2 : p reg <;> simp [h1, h2, isPubAttempt]

theorem processReg_published_names (r : Reg → Option Val) (p : Reg → Bool)
    (reg : Reg) :
    publishedNames (processReg r p reg).1 =
      if acceptedB r p reg then [reg.name] else [] := by
  unfold processReg publishedNames acceptedB
  cases r reg with
  | none => simp
  | some raw =>
    by_cases h1 : rejectCheck reg.unit (finalValue reg raw) <;>
      by_cases h2 : p reg <;> simp [h1, h2]

theorem processReg_no_announce (r : Reg → Option Val) (p : Reg → Bool)
    (reg : Reg) :
    (processReg r p reg).1.filter isAnnounce = [] := by
  unfold processReg
  cases r reg with
  | none => simp [isAnnounce]
  | some raw =>
    by_cases h1 : rejectCheck reg.unit (finalValue reg raw) <;>
      by_cases h2 : p reg <;> simp [h1, h2, isAnnounce]

theorem runCycle_success_eq_published (r : Reg → Option Val)
    (p : Reg → Bool) (catalog : List Reg) :
    (runCycle r p catalog).2 =
      ((runCycle r p catalog).1.filter isPublished).length := by
  induction catalog with
  | nil => simp [runCycle]
  | cons reg rest ih =>
    simp [runCycle, List.filter_append, ih,
      processReg_published_count r p reg]

theorem runCycle_allfail (p : Reg → Bool) (catalog : List Reg) :
    (runCycle (fun _ => none) p catalog).2 = 0 := by
  induction catalog with
  | nil => simp [runCycle]
  | cons reg rest ih => simp [runCycle, processReg, ih]

theorem runCycle_filter_read (r : Reg → Option Val) (p : Reg → Bool)
    (catalog : List Reg) :
    (runCycle r p catalog).1.filter isReadEv =
      (catalog.map (fun reg =>
        [Event.readStart reg.addr, Event.readEnd reg.addr])).flatten := by
  induction catalog with
  | nil => simp [runCycle]
  | cons reg rest ih =>
    simp only [runCycle, List.filter_append, List.map_cons, List.flatten_cons]
    rw [processReg_filter_read r p reg, ih]

theorem cycleTrace_filter_read (r : Reg → Option Val) (p : Reg → Bool)
    (catalog : List Reg) :
    (cycleTrace r p catalog).filter isReadEv =
      (catalog.map (fun reg =>
        [Event.readStart reg.addr, Event.readEnd reg.addr])).flatten := by
  simp only [cycleTrace, List.filter_append, runCycle_filter_read]
  simp [isReadEv]

theorem runCycle_no_announce (r : Reg → Option Val) (p : Reg → Bool)
    (catalog : List Reg) :
    (runCycle r p catalog).1.filter isAnnounce = [] := by
  induction catalog with
  | nil => simp [runCycle]
  | cons reg rest ih =>
    simp only [runCycle, List.filter_append]
    rw [processReg_no_announce r p reg, ih]
    rfl

theorem cycleTrace_no_announce (r : Reg → Option Val) (p : Reg → Bool)
    (catalog : List Reg) :
    (cycleTrace r p catalog).filter isAnnounce = [] := by
  simp only [cycleTrace, List.filter_append, runCycle_no_announce]
  simp [isAnnounce]

theorem runCycle_published_names (r : Reg → Option Val) (p : Reg → Bool)
    (catalog : List Reg) :
    publishedNames (runCycle r p catalog).1 =
      (catalog.filter (acceptedB r p)).map Reg.name := by
  induction catalog with
  | nil => simp [runCycle, publishedNames]
  | cons reg rest ih =>
    have h := processReg_published_names r p reg
    simp only [runCycle, publishedNames, List.filterMap_append] at ih h ⊢
    rw [h, ih, List.filter_cons]
    by_cases ha : acceptedB r p reg <;> simp [ha]

theorem cycleTrace_published_names (r : Reg → Option Val) (p : Reg → Bool)
    (catalog : List Reg) :
    publishedNames (cycleTrace r p catalog) =
      (catalog.filter (acceptedB r p)).map Reg.name := by
  have h := runCycle_published_names r p catalog
  simp only [cycleTrace, publishedNames, List.filterMap_append] at h ⊢
  rw [h]
  simp

/-- The `Voltage_A` catalog entry, used as a concrete test input. -/
def voltageA : Reg := ⟨"Voltage_A", 0x2006, "V", 1/10⟩

/-- The `Current_A` catalog entry, used as a concrete test input. -/
def currentA : Reg := ⟨"Current_A", 0x200C, "A", 1/1000⟩

/-- The `Frequency` catalog entry, used as a concrete test input. -/
def frequencyR : Reg := ⟨"Frequency", 0x2044, "Hz", 1/100⟩

/-- A read environment in which only `Current_A` suffers a transport
fault; every other register reads the raw float 5000.0. -/
def c3read : Reg → Option Val :=
  fun rg => if rg.name = "Current_A" then none else some (Val.num 5000)

/-- C1: for every descriptor and successfully read raw float, the
pipeline computes `scaled = raw * reg.scale`, rounds it to the
unit-determined number of decimals, and applies the plausibility check to
that rounded value; the value that is bound-checked is exactly the value
that is published (accepted case) or logged (rejected case). -/
theorem c1_round_then_check (r : Reg → Option Val) (p : Reg → Bool)
    (reg : Reg) (raw : Val) (hr : r reg = some raw) :
    (rejectCheck reg.unit (applyRounding reg.unit (raw.mul reg.scale)) = false →
      p reg = true →
      processReg r p reg =
        ([.readStart reg.addr, .readEnd reg.addr,
          .published reg.name (applyRounding reg.unit (raw.mul reg.scale))], 1))
    ∧ (rejectCheck reg.unit (applyRounding reg.unit (raw.mul reg.scale)) = true →
      processReg r p reg =
        ([.readStart reg.addr, .readEnd reg.addr,
          .implaus reg.name (applyRounding reg.unit (raw.mul reg.scale))], 0)) := by
  constructor
  · intro h1 h2
    simp [processReg, hr, finalValue, h1, h2]
  · intro h1
    simp [processReg, hr, finalValue, h1]

/-- C1 witness: for `Voltage_A` (scale 0.1) a raw float 9999.6 scales to
999.96, rounds at one decimal to 1000.0, is judged against the Volt bound
as 1000.0 and is therefore accepted and published as 1000.0. -/
theorem c1_round_then_check_witness :
    applyRounding voltageA.unit ((Val.num (49998/5)).mul voltageA.scale) = Val.num 1000
    ∧ processReg (fun _ => some (Val.num (49998/5))) (fun _ => true) voltageA =
        ([.readStart voltageA.addr, .readEnd voltageA.addr,
          .published voltageA.name
            (applyRounding voltageA.unit ((Val.num (49998/5)).mul voltageA.scale))], 1) := by
  constructor
  · norm_num [voltageA, applyRounding, Val.mul, Val.roundTo, roundDec, roundHalfEven]
  · exact (c1_round_then_check (fun _ => some (Val.num (49998/5))) (fun _ => true)
      voltageA (Val.num (49998/5)) rfl).1
      (by norm_num [voltageA, applyRounding, Val.mul, Val.roundTo, roundDec,
        roundHalfEven, rejectCheck, Val.lt, Val.gt]) rfl

/-- C2: the plausibility check is exactly: Volt and Ampere reject iff the
value is below 0 or above 1000, Hertz rejects iff below 40 or above 70,
Watt rejects iff the absolute value exceeds 50000, and kWh rejects
nothing; all boundary values are accepted. -/
theorem c2_plausibility_exact :
    (∀ q : ℚ, rejectCheck "V" (Val.num q) = true ↔ (q < 0 ∨ q > 1000))
    ∧ (∀ q : ℚ, rejectCheck "A" (Val.num q) = true ↔ (q < 0 ∨ q > 1000))
    ∧ (∀ q : ℚ, rejectCheck "Hz" (Val.num q) = true ↔ (q < 40 ∨ q > 70))
    ∧ (∀ q : ℚ, rejectCheck "W" (Val.num q) = true ↔ |q| > 50000)
    ∧ (∀ v : Val, rejectCheck "kWh" v = false)
    ∧ rejectCheck "V" (Val.num 0) = false
    ∧ rejectCheck "V" (Val.num 1000) = false
    ∧ rejectCheck "A" (Val.num 0) = false
    ∧ rejectCheck "A" (Val.num 1000) = false
    ∧ rejectCheck "Hz" (Val.num 40) = false
    ∧ rejectCheck "Hz" (Val.num 70) = false
    ∧ rejectCheck "W" (Val.num 50000) = false
    ∧ rejectCheck "W" (Val.num (-50000)) = false := by
  refine ⟨?_, ?_, ?_, ?_, ?_, ?_, ?_, ?_, ?_, ?_, ?_, ?_, ?_⟩
  · intro q
    simp [rejectCheck, Val.lt, Val.gt]
  · intro q
    simp [rejectCheck, Val.lt, Val.gt]
  · intro q
    simp [rejectCheck, Val.lt, Val.gt]
  · intro q
    simp [rejectCheck, Val.lt, Val.gt, Val.abs]
  · intro v
    rfl
  all_goals decide

/-- C3: a transport read fault on one descriptor is absorbed as a `none`
reading: the descriptor contributes only a read-error event, publishes
nothing, and every subsequent descriptor of the cycle is processed
exactly as it would have been. -/
theorem c3_read_fault_contained (r : Reg → Option Val) (p : Reg → Bool)
    (pre post : List Reg) (reg : Reg) (hr : r reg = none) :
    (runCycle r p (pre ++ reg :: post)).1 =
      (runCycle r p pre).1 ++
        ([.readStart reg.addr, .readEnd reg.addr, .readErr reg.name] ++
          (runCycle r p post).1)
    ∧ (runCycle r p (pre ++ reg :: post)).2 =
        (runCycle r p pre).2 + (runCycle r p post).2
    ∧ publishedNames (processReg r p reg).1 = [] := by
  have hproc : processReg r p reg =
      ([.readStart reg.addr, .readEnd reg.addr, .readErr reg.name], 0) := by
    simp [processReg, hr]
  refine ⟨?_, ?_, ?_⟩
  · rw [runCycle_append]
    simp [runCycle, hproc]
  · rw [runCycle_append]
    simp [runCycle, hproc]
  · simp [hproc, publishedNames]

/-- C3 witness: with `Current_A` faulted between two good reads, the
success counter is the sum contributed by the descriptors around it. -/
theorem c3_read_fault_contained_witness :
    (runCycle c3read (fun _ => true) ([voltageA] ++ currentA :: [frequencyR])).2 =
      (runCycle c3read (fun _ => true) [voltageA]).2 +
        (runCycle c3read (fun _ => true) [frequencyR]).2 :=
  (c3_read_fault_contained c3read (fun _ => true) [voltageA] [frequencyR]
    currentA rfl).2.1

/-- C4: `successful_reads` equals the number of successfully published
values of the cycle, and the `successCount/totalCount` summary is always
the last event of the cycle trace, also when every read fails (then with
count 0). -/
theorem c4_summary_and_count (r : Reg → Option Val) (p : Reg → Bool)
    (catalog : List Reg) :
    (runCycle r p catalog).2 =
      ((runCycle r p catalog).1.filter isPublished).length
    ∧ (cycleTrace r p catalog).getLast? =
        some (.summary (runCycle r p catalog).2 catalog.length)
    ∧ (cycleTrace (fun _ => none) p catalog).getLast? =
        some (.summary 0 catalog.length) := by
  refine ⟨runCycle_success_eq_published r p catalog, ?_, ?_⟩
  · rw [cycleTrace]
    exact List.getLast?_concat _
  · rw [cycleTrace, runCycle_allfail]
    exact List.getLast?_concat _

/-- C5: `publish_discovery` is idempotent — over a fixed catalog and
configuration, the i-th message of a second invocation is byte-identical
(topic, payload and retain flag) to the i-th message of the first. -/
theorem c5_announce_idempotent (cfg : Config) (catalog : List Reg) (i : ℕ)
    (h : i < catalog.length) :
    (announceTwice cfg catalog)[i]? =
      (announceTwice cfg catalog)[catalog.length + i]?
    ∧ (announceTwice cfg catalog)[i]? =
        some (announceMessage cfg (catalog.get ⟨i, h⟩)) := by
  have hlen : (announceMessages cfg catalog).length = catalog.length :=
    List.length_map _ _
  have h1 : (announceTwice cfg catalog)[i]? =
      (announceMessages cfg catalog)[i]? := by
    rw [announceTwice, List.getElem?_append, if_pos (by omega)]
  have h2 : (announceTwice cfg catalog)[catalog.length + i]? =
      (announceMessages cfg catalog)[i]? := by
    rw [announceTwice, List.getElem?_append_right (by omega), hlen,
      Nat.add_sub_cancel_left]
  have h3 : (announceMessages cfg catalog)[i]? =
      some (announceMessage cfg (catalog.get ⟨i, h⟩)) := by
    rw [announceMessages, List.getElem?_map, List.getElem?_eq_getElem h]
    simp [List.get_eq_getElem]
  exact ⟨h1.trans h2.symm, h1.trans h3⟩

/-- C5 witness: the first register's discovery message is identical
across the two invocations over the real catalog and configuration. -/
theorem c5_announce_idempotent_witness :
    (announceTwice defaultConfig REGISTERS)[0]? =
      (announceTwice defaultConfig REGISTERS)[REGISTERS.length + 0]?
    ∧ (announceTwice defaultConfig REGISTERS)[0]? =
        some (announceMessage defaultConfig (REGISTERS.get ⟨0, by decide⟩)) :=
  c5_announce_idempotent defaultConfig REGISTERS 0 (by decide)

/-- C6: for an accepted value the cycle makes exactly one publish
attempt (never more), a failing publish yields a single failure event and
no success increment, and the descriptors after the failing one are
processed exactly as they would have been. -/
theorem c6_publish_failure_contained (r : Reg → Option Val) (p : Reg → Bool)
    (pre post : List Reg) (reg : Reg) (raw : Val)
    (hr : r reg = some raw)
    (hok : rejectCheck reg.unit (finalValue reg raw) = false)
    (hp : p reg = false) :
    processReg r p reg =
      ([.readStart reg.addr, .readEnd reg.addr, .pubFail reg.name], 0)
    ∧ (runCycle r p (pre ++ reg :: post)).1 =
        (runCycle r p pre).1 ++
          ([.readStart reg.addr, .readEnd reg.addr, .pubFail reg.name] ++
            (runCycle r p post).1)
    ∧ ∀ rg : Reg, ((processReg r p rg).1.filter isPubAttempt).length ≤ 1 := by
  have hproc : processReg r p reg =
      ([.readStart reg.addr, .readEnd reg.addr, .pubFail reg.name], 0) := by
    simp [processReg, hr, hok, hp]
  refine ⟨hproc, ?_, fun rg => processReg_pub_attempts r p rg⟩
  rw [runCycle_append]
  simp [runCycle, hproc]

/-- C6 witness: a plausible `Voltage_A` reading whose publish call fails
is recorded as a single failure without aborting anything. -/
theorem c6_publish_failure_contained_witness :
    processReg (fun _ => some (Val.num 2500)) (fun _ => false) voltageA =
      ([.readStart voltageA.addr, .readEnd voltageA.addr,
        .pubFail voltageA.name], 0) :=
  (c6_publish_failure_contained (fun _ => some (Val.num 2500)) (fun _ => false)
    [] [frequencyR] voltageA (Val.num 2500) rfl
    (by norm_num [voltageA, finalValue, applyRounding, Val.mul, Val.roundTo,
      roundDec, roundHalfEven, rejectCheck, Val.lt, Val.gt]) rfl).1

set_option maxRecDepth 8192 in
/-- C7: the discovery document of every descriptor is published retained
on `homeassistant/sensor/<device-id>/<lowercased name>/config`, carries
exactly the fields name, state_topic, unit_of_measurement, unique_id and
device (with identifiers, name, model, manufacturer), its unique_id is
the device id joined to the lowercased descriptor name, and its
state_topic is the telemetry topic `<mqtt-prefix>/<name>` the cycle
publishes values on; for `Voltage_A` under the default configuration the
serialised payload is the exact JSON shown. -/
theorem c7_discovery_document (cfg : Config) (reg : Reg) :
    discoveryTopic cfg reg =
      "homeassistant/sensor/" ++ cfg.deviceId ++ "/" ++ pyLower reg.name ++
        "/config"
    ∧ (discoveryDoc cfg reg).state_topic = telemetryTopic cfg reg
    ∧ (discoveryDoc cfg reg).unique_id = cfg.deviceId ++ "_" ++ pyLower reg.name
    ∧ (discoveryDoc cfg reg).device =
        ⟨[cfg.deviceId], cfg.deviceName, "DTSU666", "Chint"⟩
    ∧ announceMessage cfg reg =
        (discoveryTopic cfg reg, (discoveryDoc cfg reg).dumps, true)
    ∧ (discoveryDoc defaultConfig voltageA).dumps =
        "\x7b\"name\": \"Voltage A\", \"state_topic\": \"chint/dtsu666/Voltage_A\", \"unit_of_measurement\": \"V\", \"unique_id\": \"dtsu666_meter_voltage_a\", \"device\": \x7b\"identifiers\": [\"dtsu666_meter\"], \"name\": \"Chint DTSU666\", \"model\": \"DTSU666\", \"manufacturer\": \"Chint\"\x7d\x7d" := by
  refine ⟨rfl, rfl, rfl, rfl, rfl, ?_⟩
  decide

/-- C8: the scheduler announces exactly once, before any cycle; each
cycle issues its transport reads strictly sequentially in catalog order
(each read completing before the next starts), publishes accepted values
in catalog order, and cycle N's trace fully precedes cycle N+1's. -/
theorem c8_scheduler_ordering (cfg : Config) (r : ℕ → Reg → Option Val)
    (p : ℕ → Reg → Bool) (r1 : Reg → Option Val) (p1 : Reg → Bool)
    (catalog : List Reg) (n : ℕ) :
    programTrace cfg r p catalog (n + 1) =
      programTrace cfg r p catalog n ++ cycleTrace (r n) (p n) catalog
    ∧ programTrace cfg r p catalog 0 = announceEvents cfg catalog
    ∧ (programTrace cfg r p catalog n).filter isAnnounce =
        announceEvents cfg catalog
    ∧ (cycleTrace r1 p1 catalog).filter isReadEv =
        (catalog.map (fun reg =>
          [Event.readStart reg.addr, Event.readEnd reg.addr])).flatten
    ∧ publishedNames (cycleTrace r1 p1 catalog) =
        (catalog.filter (acceptedB r1 p1)).map Reg.name := by
  refine ⟨?_, ?_, ?_, cycleTrace_filter_read r1 p1 catalog,
    cycleTrace_published_names r1 p1 catalog⟩
  · simp [programTrace, List.range_succ]
  · simp [programTrace]
  · rw [programTrace, List.filter_append]
    have h1 : (announceEvents cfg catalog).filter isAnnounce =
        announceEvents cfg catalog := by
      apply List.filter_eq_self.mpr
      intro e he
      rw [announceEvents] at he
      obtain ⟨reg, _, rfl⟩ := List.mem_map.mp he
      rfl
    have h2 : (((List.range n).map
        (fun k => cycleTrace (r k) (p k) catalog)).flatten).filter isAnnounce
        = [] := by
      rw [List.filter_flatten, List.map_map]
      have hz : ∀ k ∈ List.range n,
          (List.filter isAnnounce ∘ fun k => cycleTrace (r k) (p k) catalog) k
            = [] :=
        fun k _ => cycleTrace_no_announce (r k) (p k) catalog
      rw [List.map_congr_left hz]
      simp
    rw [h1, h2, List.append_nil]

/-- C9: the rounding precision is a fixed function of the unit — V to 1
decimal, A to 3, W to 1, Hz to 2, kWh to 3 — and every catalog entry
carries one of these five units. -/
theorem c9_precision_per_unit :
    (∀ reg : Reg, reg ∈ REGISTERS →
      reg.unit = "V" ∨ reg.unit = "A" ∨ reg.unit = "W" ∨ reg.unit = "Hz" ∨
        reg.unit = "kWh")
    ∧ (∀ v : Val, applyRounding "V" v = v.roundTo 1)
    ∧ (∀ v : Val, applyRounding "A" v = v.roundTo 3)
    ∧ (∀ v : Val, applyRounding "W" v = v.roundTo 1)
    ∧ (∀ v : Val, applyRounding "Hz" v = v.roundTo 2)
    ∧ (∀ v : Val, applyRounding "kWh" v = v.roundTo 3) := by
  refine ⟨?_, fun v => rfl, fun v => rfl, fun v => rfl, fun v => rfl,
    fun v => rfl⟩
  intro reg hreg
  fin_cases hreg <;> simp

/-- C9 witness: `Voltage_A` is in the catalog and its unit is one of the
five rounded units. -/
theorem c9_precision_per_unit_witness :
    voltageA ∈ REGISTERS
    ∧ (voltageA.unit = "V" ∨ voltageA.unit = "A" ∨ voltageA.unit = "W" ∨
        voltageA.unit = "Hz" ∨ voltageA.unit = "kWh") :=
  ⟨by unfold REGISTERS voltageA; exact List.mem_cons_self _ _,
   c9_precision_per_unit.1 voltageA
     (by unfold REGISTERS voltageA; exact List.mem_cons_self _ _)⟩

/-- C10: a NaN reading passes every unit's plausibility check (each
rejection condition is an IEEE comparison that is false on NaN, and the
kWh branch has no condition), so a NaN that survives reading is scaled
and rounded to NaN, accepted, and published. -/
theorem c10_nan_passes (r : Reg → Option Val) (p : Reg → Bool) (reg : Reg)
    (hr : r reg = some Val.nan) (hp : p reg = true) :
    (∀ u : String, rejectCheck u Val.nan = false)
    ∧ finalValue reg Val.nan = Val.nan
    ∧ processReg r p reg =
        ([.readStart reg.addr, .readEnd reg.addr,
          .published reg.name Val.nan], 1) := by
  have hnan : ∀ u : String, rejectCheck u Val.nan = false := by
    intro u
    unfold rejectCheck
    repeat' split
    all_goals rfl
  have hfin : finalValue reg Val.nan = Val.nan := by
    show applyRounding reg.unit Val.nan = Val.nan
    unfold applyRounding
    repeat' split
    all_goals rfl
  refine ⟨hnan, hfin, ?_⟩
  simp [processReg, hr, hfin, hnan, hp]

/-- C10 witness: a NaN read of `Voltage_A` is accepted and published. -/
theorem c10_nan_passes_witness :
    processReg (fun _ => some Val.nan) (fun _ => true) voltageA =
      ([.readStart voltageA.addr, .readEnd voltageA.addr,
        .published voltageA.name Val.nan], 1) :=
  (c10_nan_passes (fun _ => some Val.nan) (fun _ => true) voltageA rfl rfl).2.2

end Dtsu666
